import Mathlib

/-!
Verification development for the tscan cache layer: a shallow embedding of
`src/tscan/cache/model_query.py` (the immutable SQL query builder, its
dynamically generated predicate-operator methods, the `build` assembly
algorithm and the `preview` renderer) and of
`src/tscan/cache/connection.py` (the scoped connection manager), together
with theorems settling the specified properties.

Python data is modelled as follows: Python values appearing as query
parameters become the inductive `Value`; Python `dict`s (which preserve
insertion order, keep a key at its position on overwrite, and append new
keys at the end) become ordered association lists with explicit update
functions mirroring those semantics; fallible code returns `Except PyErr`;
`str` formatting of `int` is modelled by an executable decimal rendering
function.  Where the aliasing of mutable containers matters (the generated
operator methods perform `dict.copy()` which is shallow), a second,
heap-explicit model (`Store`/`MQRef`) makes the shared list references
visible.
-/

namespace Tscan

/-- Single-quote character (codepoint 39), used to assemble Python string
literals and SQL string escaping without embedding raw quote characters. -/
def sqChar : Char := Char.ofNat 39

/-- One-character string holding a single quote. -/
def sq : String := String.mk [sqChar]

/-- Count of placeholder characters in a character list. -/
def countQL (l : List Char) : Nat := l.count '?'

/-- Count of placeholder characters in a string; this is the number of
positional placeholders an SQL engine would see in the text. -/
def countQ (s : String) : Nat := countQL s.data

/-- Python `sep.join(xs)`: the elements of `xs` interleaved with `sep`. -/
def strJoin (sep : String) : List String → String
  | [] => ""
  | [s] => s
  | s :: rest => s ++ sep ++ strJoin sep rest

/-- Concatenation of a list of strings (models repeated `sql += segment`). -/
def concatAll : List String → String
  | [] => ""
  | s :: rest => s ++ concatAll rest

/-- Decimal digit character for a digit value (values above nine clamp to
the last digit; all call sites pass a value below ten). -/
def digitChar : Nat → Char
  | 0 => '0'
  | 1 => '1'
  | 2 => '2'
  | 3 => '3'
  | 4 => '4'
  | 5 => '5'
  | 6 => '6'
  | 7 => '7'
  | 8 => '8'
  | _ => '9'

/-- Decimal digits of a natural number, most significant first, with a
structural fuel argument (any fuel above the digit count gives the full
rendering; the fuel-exhausted branch is unreachable from `natChars`). -/
def natCharsAux : Nat → Nat → List Char
  | 0, _ => []
  | fuel + 1, n =>
    if n < 10 then [digitChar n]
    else natCharsAux fuel (n / 10) ++ [digitChar (n % 10)]

/-- Decimal digits of a natural number, most significant first. -/
def natChars (n : Nat) : List Char := natCharsAux (n + 1) n

/-- Models Python `str(i)` for an `int`: decimal rendering with a leading
minus sign for negative values. -/
def pyIntStr (i : Int) : String :=
  if i < 0 then "-" ++ String.mk (natChars i.natAbs) else String.mk (natChars i.natAbs)

/-- Python attribute values that flow through the query builder as
parameters: `None`, `int`, `str`, `list` and `tuple`. -/
inductive Value where
  | pynone : Value
  | pyint : Int → Value
  | pystr : String → Value
  | pylist : List Value → Value
  | pytuple : List Value → Value

/-- Whether a value is a `list` or `tuple` (the Python
`isinstance(value, (list, tuple))` test at model_query.py line 304). -/
def isSeqValue : Value → Bool
  | .pylist _ => true
  | .pytuple _ => true
  | _ => false

/-- Exceptions raised by the modelled code, each carrying the formatted
message of the corresponding Python exception. -/
inductive PyErr where
  | tablenameDoesNotExist : String → PyErr
  | valueError : String → PyErr
  | attributeError : String → PyErr
  | keyError : String → PyErr
  | notImplemented : String → PyErr
  | runtimeError : String → PyErr

/-- Python `type(error).__name__` for each modelled exception. -/
def errName : PyErr → String
  | .tablenameDoesNotExist _ => "TablenameDoesNotExist"
  | .valueError _ => "ValueError"
  | .attributeError _ => "AttributeError"
  | .keyError _ => "KeyError"
  | .notImplemented _ => "NotImplementedError"
  | .runtimeError _ => "RuntimeError"

/-- Python `str(error)` for each modelled exception. -/
def errMsg : PyErr → String
  | .tablenameDoesNotExist m => m
  | .valueError m => m
  | .attributeError m => m
  | .keyError m => m
  | .notImplemented m => m
  | .runtimeError m => m

/-- Whether a string contains a character. -/
def strContains (s : String) (c : Char) : Bool := s.data.contains c

/-- Escape one character for Python `repr` of a string with the given
quote character: backslashes and the quote character are escaped. -/
def escapeChar (quote : Char) (c : Char) : List Char :=
  if c = '\\' then ['\\', '\\'] else if c = quote then ['\\', quote] else [c]

/-- Escape every character of a list for Python `repr`. -/
def escapeAll (quote : Char) : List Char → List Char
  | [] => []
  | c :: r => escapeChar quote c ++ escapeAll quote r

/-- Models Python `repr` of a `str` (for strings without control
characters): single quotes by default, double quotes when the string
contains a single quote but no double quote, with backslash escaping. -/
def pyReprStr (s : String) : String :=
  let quote : Char := if strContains s sqChar && !strContains s '"' then '"' else sqChar
  String.mk (quote :: (escapeAll quote s.data ++ [quote]))

mutual

/-- Models Python `repr` (and `str`, identical for these types) of a
parameter value. -/
def pyReprValue : Value → String
  | .pynone => "None"
  | .pyint i => pyIntStr i
  | .pystr s => pyReprStr s
  | .pylist xs => "[" ++ strJoin ", " (pyReprValueList xs) ++ "]"
  | .pytuple xs =>
    if xs.length = 1 then "(" ++ strJoin ", " (pyReprValueList xs) ++ ",)"
    else "(" ++ strJoin ", " (pyReprValueList xs) ++ ")"

/-- Helper mapping `pyReprValue` over a list of values. -/
def pyReprValueList : List Value → List String
  | [] => []
  | v :: r => pyReprValue v :: pyReprValueList r

end

/-- Python dict key lookup over an ordered association list. -/
def lookupAssoc (k : String) : List (String × β) → Option β
  | [] => none
  | (k', v) :: t => if k = k' then some v else lookupAssoc k t

/-- Python `d[k] = v`: an existing key keeps its position and gets the new
value; a new key is appended at the end. -/
def assocSet (k : String) (v : β) : List (String × β) → List (String × β)
  | [] => [(k, v)]
  | (k', v') :: rest => if k' = k then (k', v) :: rest else (k', v') :: assocSet k v rest

/-- Python `d[k].append(e)` for a dict of lists, observed on the dict
value: the first entry with key `k` gets `e` appended; `none` models the
`KeyError` raised when the key is absent. -/
def assocAppendAt (k : String) (e : α) : List (String × List α) → Option (List (String × List α))
  | [] => none
  | (k', v) :: rest =>
    if k' = k then some ((k', v ++ [e]) :: rest)
    else (assocAppendAt k e rest).map (fun r => (k', v) :: r)

/-- Python `left |= right` / `left.update(right)` on dicts: every pair of
`right` is written into `left` in order, with `assocSet` semantics. -/
def pyDictMerge (left : List (String × β)) (right : List (String × β)) : List (String × β) :=
  right.foldl (fun acc kv => assocSet kv.1 kv.2 acc) left

/-- Whether a Python `str.startswith(pre)` holds. -/
def pyStartsWith (s pre : String) : Bool := List.isPrefixOf pre.data s.data

/-- Operator registry `ModelQuery._OPERATOR_MAP` (model_query.py lines
24-37): ordered mapping from operator name to SQL token. -/
def OPERATOR_MAP : List (String × String) :=
  [("equal", "="),
   ("not_equal", "<>"),
   ("greater_than", ">"),
   ("less_than", "<"),
   ("greater_than_or_equal", ">="),
   ("less_than_or_equal", "<="),
   ("like", "LIKE"),
   ("not_like", "NOT LIKE"),
   ("in_", "IN"),
   ("not_in", "NOT IN"),
   ("is_null", "IS NULL"),
   ("is_not_null", "IS NOT NULL")]

/-- The predicate map type: ordered dict from operator name to the ordered
list of (column, value) conditions (`ModelDictParams`). -/
abbrev Params := List (String × List (String × Value))

/-- Registry-shaped predicate map whose per-operator lists are given by a
function on operator names; `generateBaseParams` is the instance at the
constant empty function. -/
def registryMap (g : String → List (String × Value)) : Params :=
  OPERATOR_MAP.map (fun p => (p.1, g p.1))

/-- Models `ModelQuery.__generate_base_params` (lines 169-171): every
registry operator mapped to an empty condition list. -/
def generateBaseParams : Params := registryMap (fun _ => [])

/-- The query-builder state, one field per `__slots__` entry of
`ModelQuery`: `query` is the rendered verb-and-table SQL text (absent
until a verb method runs), `params` the predicate dict, and the remaining
clause fields are optional exactly as in the Python constructor.
`pagination` stores `(offset, limit)`. -/
structure ModelQuery where
  query : Option String
  params : Params
  values : Option (List (String × Value))
  set_values : Option (List (String × Value))
  join : Option (List (String × String))
  order_by : Option (List (String × String))
  pagination : Option (Option Int × Option Int)
  returning : Option (List String)

/-- Fresh builder produced by the `ModelQuery()` constructor with all
defaults (lines 39-64). -/
def initB : ModelQuery :=
  ⟨none, generateBaseParams, none, none, none, none, none, none⟩

/-- The `limit_data` property (lines 157-159): second pagination slot. -/
def ModelQuery.limit_data (self : ModelQuery) : Option Int :=
  match self.pagination with
  | none => none
  | some p => p.2

/-- The `offset_data` property (lines 161-163): first pagination slot. -/
def ModelQuery.offset_data (self : ModelQuery) : Option Int :=
  match self.pagination with
  | none => none
  | some p => p.1

/-- Python `str` of the predicate dict, as interpolated by `__repr__`. -/
def pyStrParams (ps : Params) : String :=
  "\x7b" ++
    strJoin ", " (ps.map (fun e =>
      pyReprStr e.1 ++ ": " ++
        "[" ++ strJoin ", " (e.2.map (fun cv =>
          "(" ++ pyReprStr cv.1 ++ ", " ++ pyReprValue cv.2 ++ ")")) ++ "]")) ++
  "\x7d"

/-- Python `str` of an optional dict of values. -/
def pyStrOptDict : Option (List (String × Value)) → String
  | none => "None"
  | some d =>
    "\x7b" ++
      strJoin ", " (d.map (fun kv => pyReprStr kv.1 ++ ": " ++ pyReprValue kv.2)) ++
    "\x7d"

/-- Python `str` of an optional list of string pairs. -/
def pyStrOptListPair : Option (List (String × String)) → String
  | none => "None"
  | some l =>
    "[" ++
      strJoin ", " (l.map (fun p => "(" ++ pyReprStr p.1 ++ ", " ++ pyReprStr p.2 ++ ")")) ++
    "]"

/-- Python `str` of an optional integer. -/
def pyStrOptInt : Option Int → String
  | none => "None"
  | some i => pyIntStr i

/-- Python `str` of an optional list of strings. -/
def pyStrOptListStr : Option (List String) → String
  | none => "None"
  | some l => "[" ++ strJoin ", " (l.map pyReprStr) ++ "]"

/-- Python `repr` of an optional string (`{x!r}` on `Optional[str]`). -/
def pyReprOptStr : Option String → String
  | none => "None"
  | some s => pyReprStr s

/-- Models `ModelQuery.__repr__` (lines 372-380). -/
def reprMQ (self : ModelQuery) : String :=
  "ModelQuery(query=" ++ pyReprOptStr self.query ++
  ", params=" ++ pyStrParams self.params ++
  ", values=" ++ pyStrOptDict self.values ++
  ", set_values=" ++ pyStrOptDict self.set_values ++
  ", order_by=" ++ pyStrOptListPair self.order_by ++
  ", join=" ++ pyStrOptListPair self.join ++
  ", limit=" ++ pyStrOptInt self.limit_data ++
  ", offset=" ++ pyStrOptInt self.offset_data ++
  ", returning=" ++ pyStrOptListStr self.returning ++ ")"

/-- The `TablenameDoesNotExist` exception raised by the
`__requires_tablename` / `_tablename_exists` guards and by `build`:
the message template from `tscan.exc.messages` formatted with the
builder `repr`. -/
def tablenameError (self : ModelQuery) : PyErr :=
  .tablenameDoesNotExist ("The query (" ++ reprMQ self ++ ") does not specify the table name.")

/-- Override-or-keep combinator used by `__clone_with` (lines 66-87): a
given (non-`None`) argument replaces the stored field, otherwise the
field of the receiver is kept. -/
def orKeep (o : Option α) (d : Option α) : Option α :=
  match o with
  | some x => some x
  | none => d

/-- Models `ModelQuery.__clone_with` (lines 66-87): a new instance whose
fields are the given overrides where present and the fields of the receiver
otherwise (`params` is never `None` on the receiver, so the
`generate_base_params` default is unreachable from here). -/
def cloneWith (self : ModelQuery) (q : Option String) (p : Option Params)
    (v sv : Option (List (String × Value))) (j ob : Option (List (String × String)))
    (pg : Option (Option Int × Option Int)) (r : Option (List String)) : ModelQuery :=
  ⟨orKeep q self.query,
   (match p with | some x => x | none => self.params),
   orKeep v self.values,
   orKeep sv self.set_values,
   orKeep j self.join,
   orKeep ob self.order_by,
   orKeep pg self.pagination,
   orKeep r self.returning⟩

/-- Models `ModelQuery.select` (lines 173-181): binds the
`SELECT columns FROM tablename` text; an absent or empty column list
renders as `*` (Python truthiness of the list). -/
def ModelQuery.select (self : ModelQuery) (tablename : String)
    (columns : Option (List String)) : ModelQuery :=
  let resulted_columns : String :=
    if (columns.getD []).isEmpty then "*" else strJoin "," (columns.getD [])
  cloneWith self (some ("SELECT " ++ resulted_columns ++ " FROM " ++ tablename))
    none none none none none none none

/-- Models `ModelQuery.insert` (lines 194-195). -/
def ModelQuery.insert (self : ModelQuery) (tablename : String) : ModelQuery :=
  cloneWith self (some ("INSERT INTO " ++ tablename)) none none none none none none none

/-- Models `ModelQuery.delete` (lines 206-207). -/
def ModelQuery.delete (self : ModelQuery) (tablename : String) : ModelQuery :=
  cloneWith self (some ("DELETE FROM " ++ tablename)) none none none none none none none

/-- Models `ModelQuery.update` (lines 209-210). -/
def ModelQuery.update (self : ModelQuery) (tablename : String) : ModelQuery :=
  cloneWith self (some ("UPDATE " ++ tablename)) none none none none none none none

/-- Models the Python attribute access `arg.params` performed by `where`
at line 190.  `ModelQuery` declares `__slots__` and exposes its predicate
dict only through the `params_data` property (lines 133-135); the class
has no attribute named `params`, so the lookup raises `AttributeError`
for every instance. -/
def attrParamsMsg : String :=
  sq ++ "ModelQuery" ++ sq ++ " object has no attribute " ++ sq ++ "params" ++ sq

def getattrParams (_arg : ModelQuery) : Except PyErr Params :=
  .error (.attributeError attrParamsMsg)

/-- Models `ModelQuery.where` (lines 183-192), including its
`@__requires_tablename` decorator: with no fragments the receiver is
returned; otherwise the `arg.params` attribute of each fragment is read (which
raises, see `getattrParams`) and merged with `|=`. -/
def ModelQuery.whereM (self : ModelQuery) (args : List ModelQuery) : Except PyErr ModelQuery := do
  if self.query.isNone then
    .error (tablenameError self)
  else if args.isEmpty then
    .ok self
  else do
    let new_params ← args.foldlM
      (fun acc arg => do
        let p ← getattrParams arg
        pure (pyDictMerge acc p))
      self.params
    .ok (cloneWith self none (some new_params) none none none none none none)

/-- Models `ModelQuery.values` (lines 197-204) with its decorator: merges
the keyword arguments into the INSERT value dict; no-op on empty input. -/
def ModelQuery.valuesM (self : ModelQuery) (kwargs : List (String × Value)) :
    Except PyErr ModelQuery :=
  if self.query.isNone then .error (tablenameError self)
  else if kwargs.isEmpty then .ok self
  else
    let new_values := pyDictMerge (self.values.getD []) kwargs
    .ok (cloneWith self none none (some new_values) none none none none none)

/-- Models `ModelQuery.set` (lines 212-219) with its decorator: merges the
keyword arguments into the UPDATE assignment dict; no-op on empty input. -/
def ModelQuery.setM (self : ModelQuery) (kwargs : List (String × Value)) :
    Except PyErr ModelQuery :=
  if self.query.isNone then .error (tablenameError self)
  else if kwargs.isEmpty then .ok self
  else
    let new_set := pyDictMerge (self.set_values.getD []) kwargs
    .ok (cloneWith self none none none (some new_set) none none none none)

/-- Models `ModelQuery.join` (lines 221-225) with its decorator: appends
one (table, condition) descriptor to a copy of the join list. -/
def ModelQuery.joinM (self : ModelQuery) (tablename condition : String) :
    Except PyErr ModelQuery :=
  if self.query.isNone then .error (tablenameError self)
  else
    let j := (self.join.getD []) ++ [(tablename, condition)]
    .ok (cloneWith self none none none none (some j) none none none)

/-- Models `ModelQuery.order_by` (lines 227-231) with its decorator:
appends one (column, direction) descriptor. -/
def ModelQuery.orderByM (self : ModelQuery) (column order_type : String) :
    Except PyErr ModelQuery :=
  if self.query.isNone then .error (tablenameError self)
  else
    let ob := (self.order_by.getD []) ++ [(column, order_type)]
    .ok (cloneWith self none none none none none (some ob) none none)

/-- Models `ModelQuery.limit` (lines 233-240) with its decorator: a
negative argument raises `ValueError`; otherwise the limit slot of the
pagination pair is set, keeping the previously stored offset slot. -/
def ModelQuery.limit (self : ModelQuery) (lim : Int) : Except PyErr ModelQuery :=
  if self.query.isNone then .error (tablenameError self)
  else if lim < 0 then .error (.valueError "Limit must be a positive integer.")
  else
    .ok (cloneWith self none none none none none none
      (some ((match self.pagination with | none => none | some p => p.1), some lim)) none)

/-- Models `ModelQuery.offset` (lines 242-249) with its decorator: a
negative argument raises `ValueError`; otherwise the offset slot of the
pagination pair is set, keeping the previously stored limit slot. -/
def ModelQuery.offset (self : ModelQuery) (off : Int) : Except PyErr ModelQuery :=
  if self.query.isNone then .error (tablenameError self)
  else if off < 0 then .error (.valueError "Offset must be a positive integer.")
  else
    .ok (cloneWith self none none none none none none
      (some (some off, (match self.pagination with | none => none | some p => p.2))) none)

/-- Models `ModelQuery.returning` (lines 251-258) with its decorator:
appends the given column names; no-op on empty input. -/
def ModelQuery.returningM (self : ModelQuery) (args : List String) :
    Except PyErr ModelQuery :=
  if self.query.isNone then .error (tablenameError self)
  else if args.isEmpty then .ok self
  else
    let r := (self.returning.getD []) ++ args
    .ok (cloneWith self none none none none none none none (some r))

/-- Models the method body produced by
`ModelQuery._create_operator_method` composed with the
`_tablename_exists` decorator, as installed for every registry operator
at module load (lines 109-127 and 386-389): after the table and registry
checks, `self.__params.copy()` is taken and the pair is appended to the
list of that operator; the observable predicate dict of the *returned* builder
is `assocAppendAt` of that of the receiver (the aliasing of the held
list, invisible here, is modelled separately by `operatorMethodRef`). -/
def operatorMethod (op_name : String) (self : ModelQuery) (column : String)
    (value : Value) : Except PyErr ModelQuery :=
  if self.query.isNone then .error (tablenameError self)
  else if (lookupAssoc op_name OPERATOR_MAP).isNone then
    .error (.notImplemented
      ("The operator " ++ sq ++ op_name ++ sq ++ " is not supported."))
  else
    match assocAppendAt op_name (column, value) self.params with
    | none => .error (.keyError (pyReprStr op_name))
    | some new_params =>
      .ok (cloneWith self none (some new_params) none none none none none none)

/-- Python truthiness of an optional list (`None` and `[]` are falsy). -/
def truthyOL (o : Option (List α)) : Bool :=
  match o with
  | none => false
  | some l => !l.isEmpty

/-- Python `any(self.__params.values())`: some condition list is
non-empty. -/
def anyNonEmpty (ps : Params) : Bool := ps.any (fun e => !e.2.isEmpty)

/-- Message of the `ValueError` raised for a membership predicate whose
value is not a list or tuple (lines 305-307). -/
def inNotInMsg : String :=
  "The " ++ sq ++ "in" ++ sq ++ " and " ++ sq ++ "not_in" ++ sq ++
    " operators require a list or tuple."

/-- One iteration of the WHERE loop body of `build` (lines 300-313):
renders one (column, value) condition for the operator named `op_name`
with SQL token `op_symbol`, giving the clause text and the parameters it
appends.  Note the membership special case compares `op_name` against the
literal tuple `("in", "not_in")` exactly as the source does — the registry
key of the IN operator is `"in_"`, which this test never matches. -/
def renderCondition (op_name op_symbol column : String) (value : Value) :
    Except PyErr (String × List Value) :=
  if op_name = "is_null" || op_name = "is_not_null" then
    .ok (column ++ " " ++ op_symbol, [])
  else if op_name = "in" || op_name = "not_in" then
    match value with
    | .pylist xs =>
      .ok (column ++ " " ++ op_symbol ++ " (" ++
        strJoin ", " (List.replicate xs.length "?") ++ ")", xs)
    | .pytuple xs =>
      .ok (column ++ " " ++ op_symbol ++ " (" ++
        strJoin ", " (List.replicate xs.length "?") ++ ")", xs)
    | _ => .error (.valueError inNotInMsg)
  else
    .ok (column ++ " " ++ op_symbol ++ " ?", [value])

/-- The inner WHERE loop over the condition list of one operator, collecting
clauses and parameters in iteration order. -/
def renderConditions (op_name op_symbol : String) :
    List (String × Value) → Except PyErr (List String × List Value)
  | [] => .ok ([], [])
  | (c, v) :: rest => do
    let (clause, ps) ← renderCondition op_name op_symbol c v
    let (restC, restP) ← renderConditions op_name op_symbol rest
    .ok (clause :: restC, ps ++ restP)

/-- The outer WHERE loop of `build` (lines 296-313) over the predicate
dict entries in order: empty condition lists are skipped; otherwise the
operator symbol is looked up (`KeyError` when the dict holds a name
outside the registry) and every condition rendered. -/
def buildWhere : Params → Except PyErr (List String × List Value)
  | [] => .ok ([], [])
  | (op_name, conditions) :: rest =>
    if conditions.isEmpty then buildWhere rest
    else
      match lookupAssoc op_name OPERATOR_MAP with
      | none => .error (.keyError (pyReprStr op_name))
      | some op_symbol => do
        let (cs, ps) ← renderConditions op_name op_symbol conditions
        let (cs', ps') ← buildWhere rest
        .ok (cs ++ cs', ps ++ ps')

/-- JOIN segment of `build` (lines 273-276): rendered only for SELECT. -/
def joinSegment (q : String) (j : Option (List (String × String))) : String :=
  if truthyOL j && pyStartsWith q "SELECT" then
    concatAll ((j.getD []).map (fun tc => " JOIN " ++ tc.1 ++ " ON " ++ tc.2))
  else ""

/-- SET segment of `build` (lines 278-284): rendered only for UPDATE;
one `col = ?` clause and one parameter per assignment, in dict order. -/
def setSegment (q : String) (sv : Option (List (String × Value))) : String × List Value :=
  if truthyOL sv && pyStartsWith q "UPDATE" then
    (" SET " ++ strJoin ", " ((sv.getD []).map (fun kv => kv.1 ++ " = ?")),
     (sv.getD []).map (fun kv => kv.2))
  else ("", [])

/-- VALUES segment of `build` (lines 286-291): rendered only for INSERT;
the column list and one placeholder and parameter per value, in dict
order. -/
def valuesSegment (q : String) (v : Option (List (String × Value))) : String × List Value :=
  if truthyOL v && pyStartsWith q "INSERT" then
    (" (" ++ strJoin ", " ((v.getD []).map (fun kv => kv.1)) ++ ") VALUES (" ++
       strJoin ", " (List.replicate (v.getD []).length "?") ++ ")",
     (v.getD []).map (fun kv => kv.2))
  else ("", [])

/-- WHERE segment of `build` (lines 293-315): runs only when some
predicate list is non-empty; the rendered clauses are joined with
`" AND "` after the loop, guarded by the (always true at that point)
non-emptiness check of the clause list. -/
def whereSegment (ps : Params) : Except PyErr (String × List Value) :=
  if anyNonEmpty ps then
    match buildWhere ps with
    | .error e => .error e
    | .ok (cs, prms) =>
      .ok ((if cs.isEmpty then "" else " WHERE " ++ strJoin " AND " cs), prms)
  else .ok ("", [])

/-- ORDER BY segment of `build` (lines 317-320): SELECT only. -/
def orderSegment (q : String) (ob : Option (List (String × String))) : String :=
  if truthyOL ob && pyStartsWith q "SELECT" then
    " ORDER BY " ++ strJoin ", " ((ob.getD []).map (fun cd => cd.1 ++ " " ++ cd.2))
  else ""

/-- LIMIT/OFFSET segment of `build` (lines 322-328): SELECT only; a set
pagination pair (always truthy as a Python tuple) renders `LIMIT` before
`OFFSET`, each side only when present. -/
def pagSegment (q : String) (pg : Option (Option Int × Option Int)) : String :=
  if pg.isSome && pyStartsWith q "SELECT" then
    match pg with
    | none => ""
    | some (off, lim) =>
      (match lim with | none => "" | some l => " LIMIT " ++ pyIntStr l) ++
      (match off with | none => "" | some o => " OFFSET " ++ pyIntStr o)
  else ""

/-- RETURNING segment of `build` (lines 330-335): INSERT or UPDATE only. -/
def returningSegment (q : String) (r : Option (List String)) : String :=
  if truthyOL r && (pyStartsWith q "INSERT" || pyStartsWith q "UPDATE") then
    " RETURNING " ++ strJoin ", " (r.getD [])
  else ""

/-- Models `ModelQuery.build` (lines 260-337): fails with the
missing-table error when no verb is bound, then extends the SQL text with
each clause segment in source order, accumulating parameters in the same
order (SET, then VALUES, then WHERE; the remaining segments add none). -/
def ModelQuery.build (self : ModelQuery) : Except PyErr (String × List Value) :=
  match self.query with
  | none => .error (tablenameError self)
  | some q =>
    match whereSegment self.params with
    | .error e => .error e
    | .ok (wsql, wps) =>
      .ok (q ++ joinSegment q self.join ++ (setSegment q self.set_values).1 ++
             (valuesSegment q self.values).1 ++ wsql ++
             orderSegment q self.order_by ++ pagSegment q self.pagination ++
             returningSegment q self.returning,
           (setSegment q self.set_values).2 ++ (valuesSegment q self.values).2 ++ wps)

/-- Double every single quote in a string: models the call
`val.replace(q, qq)` in `preview` where `q` is one single quote and `qq`
two (the pattern is a single character, so the replacement is
per-character). -/
def doubleQuotes : List Char → List Char
  | [] => []
  | c :: r => if c = sqChar then c :: c :: doubleQuotes r else c :: doubleQuotes r

/-- The `replacer` closure of `preview` (lines 351-363) applied to one
available parameter: `None` becomes `NULL`, strings become quoted
literals with doubled single quotes, numbers their decimal text, and
anything else its `repr`. -/
def renderParam (v : Value) : String :=
  match v with
  | .pynone => "NULL"
  | .pystr s => sq ++ String.mk (doubleQuotes s.data) ++ sq
  | .pyint i => pyIntStr i
  | v' => pyReprValue v'

/-- The regex substitution `sub(r"\?", replacer, sql)` of `preview`: each
placeholder character is replaced left to right by the rendering of the
next parameter; once parameters are exhausted `replacer` catches
`StopIteration` and returns the placeholder itself. -/
def substQ : List Char → List Value → List Char
  | [], _ => []
  | c :: rest, ps =>
    if c = '?' then
      match ps with
      | [] => '?' :: substQ rest []
      | p :: ps' => (renderParam p).data ++ substQ rest ps'
    else c :: substQ rest ps

/-- Models `ModelQuery.preview` (lines 339-369): builds the query and
substitutes literals for placeholders; any exception escaping `build`
(the substitution itself cannot fail) is caught and rendered as an inline
comment with the error kind and message, so the method always returns a
string. -/
def ModelQuery.preview (self : ModelQuery) : String :=
  match self.build with
  | .error e => "/* PREVIEW ERROR: " ++ errName e ++ ": " ++ errMsg e ++ " */"
  | .ok (sql, prms) => String.mk (substQ sql.data prms)

/-- The twelve registry operators, one constructor per generated builder
method (the loop at lines 386-389 installs exactly one method per
`_OPERATOR_MAP` key). -/
inductive OpName where
  | opEqual | opNotEqual | opGreaterThan | opLessThan
  | opGreaterThanOrEqual | opLessThanOrEqual | opLike | opNotLike
  | opIn | opNotIn | opIsNull | opIsNotNull
deriving DecidableEq

/-- Registry key of each generated operator method. -/
def OpName.toName : OpName → String
  | .opEqual => "equal"
  | .opNotEqual => "not_equal"
  | .opGreaterThan => "greater_than"
  | .opLessThan => "less_than"
  | .opGreaterThanOrEqual => "greater_than_or_equal"
  | .opLessThanOrEqual => "less_than_or_equal"
  | .opLike => "like"
  | .opNotLike => "not_like"
  | .opIn => "in_"
  | .opNotIn => "not_in"
  | .opIsNull => "is_null"
  | .opIsNotNull => "is_not_null"

/-- One call of a generated operator method: the operator together with
the column and value arguments. -/
abbrev OpCall := OpName × String × Value

/-- Apply one operator-method call to a builder. -/
def applyOp (b : ModelQuery) (c : OpCall) : Except PyErr ModelQuery :=
  operatorMethod c.1.toName b c.2.1 c.2.2

/-- Apply a chain of operator-method calls left to right, as a fluent
call chain `b.op1(...).op2(...)` does. -/
def applyOps : ModelQuery → List OpCall → Except PyErr ModelQuery
  | b, [] => .ok b
  | b, c :: cs =>
    match applyOp b c with
    | .error e => .error e
    | .ok b' => applyOps b' cs

/-! ### Heap-explicit model of the predicate lists

The generated operator methods run `new_params = self.__params.copy()`
(a shallow dict copy: a fresh dict object holding the *same* list
objects) and then `new_params[op_name].append(...)`, an in-place mutation
of a list that the dict of the receiver still references.  To reason about
this aliasing the following model makes the list objects explicit: a
`Store` holds the mutable lists, and an `MQRef` builder keeps, in place of
each condition list, the index of its list object in the store. -/

/-- The mutable heap of condition-list objects, indexed by allocation
order. -/
structure Store where
  lists : List (List (String × Value))

/-- Read the list object at a reference. -/
def Store.fetch (st : Store) (r : Nat) : List (String × Value) :=
  st.lists.getD r []

/-- Overwrite the list object at a reference (models one in-place
`append` when called with the extended list). -/
def Store.setAt (st : Store) (r : Nat) (l : List (String × Value)) : Store :=
  ⟨st.lists.set r l⟩

/-- Builder state with predicate lists held by reference; the remaining
fields are as in `ModelQuery` (their aliasing is irrelevant to the claims
about the operator methods). -/
structure MQRef where
  query : Option String
  params : List (String × Nat)
  values : Option (List (String × Value))
  set_values : Option (List (String × Value))
  join : Option (List (String × String))
  order_by : Option (List (String × String))
  pagination : Option (Option Int × Option Int)
  returning : Option (List String)

/-- Allocate the twelve empty condition lists of
`__generate_base_params`, returning the extended store and the predicate
dict of references. -/
def allocParams (st : Store) : Store × List (String × Nat) :=
  OPERATOR_MAP.foldl
    (fun acc p => (⟨acc.1.lists ++ [[]]⟩, acc.2 ++ [(p.1, acc.1.lists.length)]))
    (st, [])

/-- The `ModelQuery()` constructor in the heap-explicit model. -/
def initRef (st : Store) : Store × MQRef :=
  let (st', ps) := allocParams st
  (st', ⟨none, ps, none, none, none, none, none, none⟩)

/-- Dereference a builder predicate dict: the condition lists as
currently observable through the store. -/
def MQRef.observable (self : MQRef) (st : Store) : Params :=
  self.params.map (fun p => (p.1, st.fetch p.2))

/-- View a heap-explicit builder as a plain `ModelQuery` (used to format
its `repr` in error messages). -/
def MQRef.toMQ (self : MQRef) (st : Store) : ModelQuery :=
  ⟨self.query, self.observable st, self.values, self.set_values, self.join,
   self.order_by, self.pagination, self.returning⟩

/-- Models `ModelQuery.select` in the heap-explicit model: `__clone_with`
passes `self.__params` through, so the new builder shares the same list
references. -/
def MQRef.selectR (self : MQRef) (tablename : String) (columns : Option (List String)) :
    MQRef :=
  let resulted_columns : String :=
    if (columns.getD []).isEmpty then "*" else strJoin "," (columns.getD [])
  { self with query := some ("SELECT " ++ resulted_columns ++ " FROM " ++ tablename) }

/-- The generated operator method in the heap-explicit model (lines
109-127 with the `_tablename_exists` guard): `self.__params.copy()` is a
new dict with the same list references, and
`new_params[op_name].append(...)` mutates the referenced list in the
store — a mutation also visible through the dict of the receiver.  On success
the updated store and the cloned builder are returned; on error the store
is untouched. -/
def operatorMethodRef (op_name : String) (st : Store) (self : MQRef) (column : String)
    (value : Value) : Except PyErr (Store × MQRef) :=
  if self.query.isNone then .error (tablenameError (self.toMQ st))
  else if (lookupAssoc op_name OPERATOR_MAP).isNone then
    .error (.notImplemented
      ("The operator " ++ sq ++ op_name ++ sq ++ " is not supported."))
  else
    let new_params := self.params
    match lookupAssoc op_name new_params with
    | none => .error (.keyError (pyReprStr op_name))
    | some r =>
      .ok (st.setAt r (st.fetch r ++ [(column, value)]), { self with params := new_params })

/-! ### Connection manager (`src/tscan/cache/connection.py`) -/

/-- State of one `FSCacheConnection` instance: the file path plus the
optional live connection and cursor handles (abstract tokens — a present
`sqlite3` connection or cursor object is always truthy, so the `if not
self.__connection` tests are modelled by presence). -/
structure FSCacheConnection where
  file_path : String
  connection : Option Nat
  cursor : Option Nat

/-- The `connection` property (lines 21-27): raises `RuntimeError` while
no connection is established. -/
def connectionProp (self : FSCacheConnection) : Except PyErr Nat :=
  match self.connection with
  | none => .error (.runtimeError "Connection is not established.")
  | some c => .ok c

/-- The `cursor` property (lines 29-33): raises `RuntimeError` while no
cursor is established. -/
def cursorProp (self : FSCacheConnection) : Except PyErr Nat :=
  match self.cursor with
  | none => .error (.runtimeError "Cursor is not established.")
  | some c => .ok c

/-- Which cleanup operations `__exit__` attempted on the underlying
engine. -/
structure ExitTrace where
  attemptedCommit : Bool
  attemptedRollback : Bool
  attemptedClose : Bool

/-- Models `FSCacheConnection.__exit__` (lines 53-88).  `excType` is the
triggering exception type (`none` on normal exit); the three `Bool`
flags say which engine operations would fail, modelling the engine
nondeterministically.  With no live connection the whole body is skipped.
Otherwise: on normal exit commit is attempted and, if it fails, rollback
(its own failure swallowed); on abnormal exit rollback is attempted
(failure logged only); in every case the `finally` blocks attempt to
close (failure logged only) and then unconditionally reset both the
connection and the cursor.  The handler returns `False`, never
suppressing the exception of the caller. -/
def exitHandler (self : FSCacheConnection) (excType : Option String)
    (commitFails _rollbackFails _closeFails : Bool) :
    FSCacheConnection × ExitTrace × Bool :=
  match self.connection with
  | none => (self, ⟨false, false, false⟩, false)
  | some _ =>
    let acts : ExitTrace :=
      if excType.isNone then
        if commitFails then ⟨true, true, true⟩ else ⟨true, false, true⟩
      else ⟨false, true, true⟩
    ({ self with connection := none, cursor := none }, acts, false)

/-! ### Concrete instances used by the theorems below -/

/-- The builder `ModelQuery().select("t")`. -/
def baseT : ModelQuery := initB.select "t" none

/-- Heap-explicit counterpart of `ModelQuery().select("t")`: the store
after allocating the twelve base condition lists, and the receiver
builder. -/
def c3St0 : Store := (initRef ⟨[]⟩).1

/-- The receiver builder of the aliasing experiment. -/
def c3Recv : MQRef := (initRef ⟨[]⟩).2.selectR "t" none

/-- The store after `c3Recv.equal("a", 1)` runs: the first list object
(the one referenced by the `"equal"` entry of every builder) has gained the
pair. -/
def c3St1 : Store :=
  ⟨[[("a", Value.pyint 1)], [], [], [], [], [], [], [], [], [], [], []]⟩

/-- A concrete UPDATE builder with assignments, predicates (including a
NOT IN membership predicate) and a RETURNING clause, used to witness the
placeholder-parameter consistency theorem. -/
def c5b : ModelQuery :=
  ⟨some "UPDATE t",
   [("equal", [("a", Value.pyint 1)]),
    ("not_in", [("b", Value.pylist [Value.pyint 2, Value.pyint 3])]),
    ("is_null", [("c", Value.pynone)])],
   none,
   some [("x", Value.pystr "v"), ("y", Value.pyint 7)],
   none, none, none,
   some ["id"]⟩

/-- Whether none of the caller-supplied strings a builder embeds verbatim
into the SQL text contains a placeholder character. -/
def builderQFree (b : ModelQuery) : Prop :=
  countQ (b.query.getD "") = 0 ∧
  (∀ tc ∈ b.join.getD [], countQ tc.1 = 0 ∧ countQ tc.2 = 0) ∧
  (∀ kv ∈ b.set_values.getD [], countQ kv.1 = 0) ∧
  (∀ kv ∈ b.values.getD [], countQ kv.1 = 0) ∧
  (∀ e ∈ b.params, ∀ cv ∈ e.2, countQ cv.1 = 0) ∧
  (∀ cd ∈ b.order_by.getD [], countQ cd.1 = 0 ∧ countQ cd.2 = 0) ∧
  (∀ r ∈ b.returning.getD [], countQ r = 0)

/-! ### Theorems -/

/-- C9: a Connection Manager scope that exits abnormally (a triggering
exception is present) attempts rollback but not commit, always attempts
to close, unconditionally resets connection and cursor, returns `False`
(never suppressing the triggering exception), and afterwards both the
connection and cursor accessors fail with the not-established
`RuntimeError` — regardless of whether the rollback or close calls
themselves fail. -/
theorem abnormal_exit_cleanup (self : FSCacheConnection) (c : Nat)
    (excType : Option String) (cf rf clf : Bool)
    (hconn : self.connection = some c) (habn : excType.isSome = true) :
    (exitHandler self excType cf rf clf).2.1.attemptedRollback = true ∧
    (exitHandler self excType cf rf clf).2.1.attemptedCommit = false ∧
    (exitHandler self excType cf rf clf).2.1.attemptedClose = true ∧
    (exitHandler self excType cf rf clf).1.connection = none ∧
    (exitHandler self excType cf rf clf).1.cursor = none ∧
    (exitHandler self excType cf rf clf).2.2 = false ∧
    connectionProp (exitHandler self excType cf rf clf).1 =
      .error (.runtimeError "Connection is not established.") ∧
    cursorProp (exitHandler self excType cf rf clf).1 =
      .error (.runtimeError "Cursor is not established.") := by
  have hne : excType.isNone = false := by
    cases excType with
    | none => simp at habn
    | some _ => rfl
  simp [exitHandler, hconn, hne, connectionProp, cursorProp]

/-- Witness for the abnormal-exit theorem at a concrete open manager. -/
theorem abnormal_exit_cleanup_witness :
    (FSCacheConnection.mk "cache.db" (some 0) (some 1)).connection = some 0 ∧
    (exitHandler (FSCacheConnection.mk "cache.db" (some 0) (some 1))
        (some "ValueError") true true true).1.connection = none := by
  refine ⟨rfl, ?_⟩
  exact (abnormal_exit_cleanup (FSCacheConnection.mk "cache.db" (some 0) (some 1)) 0
    (some "ValueError") true true true rfl rfl).2.2.2.1

/-- C10: invoking the scope-exit handler on a Closed manager (connection
and cursor unset) is a safe no-op: nothing is attempted, the state is
unchanged, `False` is returned, and both accessors keep failing with the
not-established error. -/
theorem closed_exit_noop (self : FSCacheConnection) (excType : Option String)
    (cf rf clf : Bool) (hconn : self.connection = none) (hcur : self.cursor = none) :
    exitHandler self excType cf rf clf = (self, ⟨false, false, false⟩, false) ∧
    connectionProp self = .error (.runtimeError "Connection is not established.") ∧
    cursorProp self = .error (.runtimeError "Cursor is not established.") := by
  simp [exitHandler, hconn, hcur, connectionProp, cursorProp]

/-- Witness for the closed-manager no-op theorem. -/
theorem closed_exit_noop_witness :
    exitHandler (FSCacheConnection.mk "cache.db" none none) none false false false =
      (FSCacheConnection.mk "cache.db" none none, ⟨false, false, false⟩, false) :=
  (closed_exit_noop (FSCacheConnection.mk "cache.db" none none) none
    false false false rfl rfl).1

/-- C3 (recording the defect): the generated operator method does *not*
leave the receiver unchanged.  `self.__params.copy()` is a shallow copy,
so the dict of the returned builder holds the same list objects as
those of the receiver; the subsequent in-place `append` is visible through the
receiver.  Concretely, for `recv = ModelQuery().select("t")`, before the
call `recv.equal("a", 1)` the `"equal"` condition list observable
through `recv` is empty, the call succeeds returning a builder sharing
all list references with `recv`, and afterwards the `"equal"` list
observable through `recv` already contains `("a", 1)` — a side effect beyond the
returned value. -/
theorem operator_method_mutates_receiver :
    lookupAssoc "equal" (c3Recv.observable c3St0) = some [] ∧
    operatorMethodRef "equal" c3St0 c3Recv "a" (Value.pyint 1) = .ok (c3St1, c3Recv) ∧
    lookupAssoc "equal" (c3Recv.observable c3St1) = some [("a", Value.pyint 1)] :=
  ⟨rfl, rfl, rfl⟩

/-- C1 (recording the defect): `where` with at least one fragment always
raises `AttributeError` on a table-bound builder, because line 190 reads
`arg.params` while the class (which declares `__slots__`) only exposes
`params_data`; the merge the specification describes is never reached. -/
theorem where_fragments_raise_attribute_error (self : ModelQuery) (q : String)
    (hq : self.query = some q) (a : ModelQuery) (rest : List ModelQuery) :
    self.whereM (a :: rest) = .error (.attributeError attrParamsMsg) := by
  simp [ModelQuery.whereM, hq, getattrParams, List.foldlM, Bind.bind, Except.bind]

/-- Witness: `ModelQuery().select("t").where(ModelQuery().select("t"))`
raises the `AttributeError`. -/
theorem where_fragments_raise_attribute_error_witness :
    baseT.whereM [baseT] = .error (.attributeError attrParamsMsg) :=
  where_fragments_raise_attribute_error baseT "SELECT * FROM t" rfl baseT []

/-- C4: on a builder with no verb/table binding, every clause method —
`where`, `values`, `set`, `join`, `order_by`, `limit`, `offset`,
`returning`, every generated operator method — and `build` fails
synchronously with the missing-table `TablenameDoesNotExist` error (each
guard raises before any state is constructed, so the receiver is left
unchanged; all the modelled methods are pure functions of the
receiver). -/
theorem missing_table_rejects_everything (b : ModelQuery) (hq : b.query = none) :
    (∀ args, b.whereM args = .error (tablenameError b)) ∧
    (∀ kwargs, b.valuesM kwargs = .error (tablenameError b)) ∧
    (∀ kwargs, b.setM kwargs = .error (tablenameError b)) ∧
    (∀ t c, b.joinM t c = .error (tablenameError b)) ∧
    (∀ col d, b.orderByM col d = .error (tablenameError b)) ∧
    (∀ n, b.limit n = .error (tablenameError b)) ∧
    (∀ n, b.offset n = .error (tablenameError b)) ∧
    (∀ cols, b.returningM cols = .error (tablenameError b)) ∧
    (∀ (op : OpName) col v, operatorMethod op.toName b col v = .error (tablenameError b)) ∧
    b.build = .error (tablenameError b) := by
  refine ⟨?_, ?_, ?_, ?_, ?_, ?_, ?_, ?_, ?_, ?_⟩ <;>
    intros <;>
    simp [ModelQuery.whereM, ModelQuery.valuesM, ModelQuery.setM, ModelQuery.joinM,
      ModelQuery.orderByM, ModelQuery.limit, ModelQuery.offset, ModelQuery.returningM,
      operatorMethod, ModelQuery.build, hq]

/-- Witness: the fresh `ModelQuery()` has no table and is rejected by a
clause method and by `build`. -/
theorem missing_table_rejects_everything_witness :
    initB.query = none ∧
    initB.whereM [] = .error (tablenameError initB) ∧
    initB.limit 3 = .error (tablenameError initB) ∧
    initB.build = .error (tablenameError initB) :=
  ⟨rfl,
   (missing_table_rejects_everything initB rfl).1 [],
   (missing_table_rejects_everything initB rfl).2.2.2.2.2.1 3,
   (missing_table_rejects_everything initB rfl).2.2.2.2.2.2.2.2.2⟩

/-- C7: on a table-bound builder, `limit n` with non-negative `n` sets
the limit side of the pagination pair and preserves the previously stored
offset side, `offset n` symmetrically sets the offset side preserving the
stored limit, and a negative argument to either fails with the
`ValueError` (and, the methods being pure guards that raise before
cloning, leaves the builder unchanged). -/
theorem limit_offset_pagination (b : ModelQuery) (q : String) (n : Int)
    (hq : b.query = some q) :
    (0 ≤ n → ∃ b', b.limit n = .ok b' ∧
       b'.limit_data = some n ∧ b'.offset_data = b.offset_data) ∧
    (0 ≤ n → ∃ b'', b.offset n = .ok b'' ∧
       b''.offset_data = some n ∧ b''.limit_data = b.limit_data) ∧
    (n < 0 → b.limit n = .error (.valueError "Limit must be a positive integer.")) ∧
    (n < 0 → b.offset n = .error (.valueError "Offset must be a positive integer.")) := by
  refine ⟨?_, ?_, ?_, ?_⟩
  · intro hn
    refine ⟨cloneWith b none none none none none none
      (some ((match b.pagination with | none => none | some p => p.1), some n)) none,
      ?_, ?_, ?_⟩
    · simp [ModelQuery.limit, hq, not_lt.mpr hn]
    · simp [cloneWith, orKeep, ModelQuery.limit_data]
    · cases hp : b.pagination <;>
        simp [cloneWith, orKeep, ModelQuery.limit_data, ModelQuery.offset_data, hp]
  · intro hn
    refine ⟨cloneWith b none none none none none none
      (some (some n, (match b.pagination with | none => none | some p => p.2))) none,
      ?_, ?_, ?_⟩
    · simp [ModelQuery.offset, hq, not_lt.mpr hn]
    · simp [cloneWith, orKeep, ModelQuery.offset_data]
    · cases hp : b.pagination <;>
        simp [cloneWith, orKeep, ModelQuery.limit_data, ModelQuery.offset_data, hp]
  · intro hn
    simp [ModelQuery.limit, hq, hn]
  · intro hn
    simp [ModelQuery.offset, hq, hn]

/-- Witness: on `select("t")` with an offset of `5` already stored,
`limit(10)` keeps the offset; `limit(-1)` fails with the `ValueError`. -/
theorem limit_offset_pagination_witness :
    (∃ b', (cloneWith baseT none none none none none none (some (some 5, none)) none).limit 10
        = .ok b' ∧ b'.limit_data = some 10 ∧
        b'.offset_data =
          (cloneWith baseT none none none none none none (some (some 5, none)) none).offset_data) ∧
    (cloneWith baseT none none none none none none (some (some 5, none)) none).limit (-1)
      = .error (.valueError "Limit must be a positive integer.") :=
  ⟨(limit_offset_pagination
      (cloneWith baseT none none none none none none (some (some 5, none)) none)
      "SELECT * FROM t" 10 rfl).1 (by norm_num),
   (limit_offset_pagination
      (cloneWith baseT none none none none none none (some (some 5, none)) none)
      "SELECT * FROM t" (-1) rfl).2.2.1 (by norm_num)⟩

/-- C2 (counterexample): the claim fails for the IN operator.  The
IN entry of the registry is named `in_`, but the render-time special case
tests for the literal name `"in"`, so an `in_` predicate falls through to
the generic branch: `select("t").in_("a", [1, 2])` builds
`... WHERE a IN ?` with a *single* placeholder bound to the whole list,
and `in_` with the non-sequence value `5` builds without any value-type
error. -/
theorem membership_rendering_counterexample :
    (applyOps baseT [(.opIn, "a", .pylist [.pyint 1, .pyint 2])] >>= ModelQuery.build) =
      .ok ("SELECT * FROM t WHERE a IN ?", [.pylist [.pyint 1, .pyint 2]]) ∧
    countQ "SELECT * FROM t WHERE a IN ?" = 1 ∧
    (applyOps baseT [(.opIn, "a", .pyint 5)] >>= ModelQuery.build) =
      .ok ("SELECT * FROM t WHERE a IN ?", [.pyint 5]) :=
  ⟨rfl, rfl, rfl⟩

/-- C2 (amended): only the NOT IN registry entry (`not_in`) receives the
set-membership treatment — `column NOT IN (?, ?, …)` with one placeholder
and one appended parameter per element of a list/tuple value, and the
value-type `ValueError` for every non-sequence value.  The IN entry
(`in_`) misses the render-time special case (which compares against the
literal `"in"`), so it renders as `column IN ?` with the whole value
bound as a single parameter and no value-type check. -/
theorem membership_rendering_amended :
    (∀ (col : String) (xs : List Value),
      renderCondition "not_in" "NOT IN" col (.pylist xs) =
        .ok (col ++ " NOT IN (" ++ strJoin ", " (List.replicate xs.length "?") ++ ")", xs)) ∧
    (∀ (col : String) (xs : List Value),
      renderCondition "not_in" "NOT IN" col (.pytuple xs) =
        .ok (col ++ " NOT IN (" ++ strJoin ", " (List.replicate xs.length "?") ++ ")", xs)) ∧
    (∀ (col : String) (v : Value), isSeqValue v = false →
      renderCondition "not_in" "NOT IN" col v = .error (.valueError inNotInMsg)) ∧
    (∀ (col : String) (v : Value),
      renderCondition "in_" "IN" col v = .ok (col ++ " IN ?", [v])) ∧
    (applyOps baseT [(.opNotIn, "a", .pylist [.pyint 1, .pyint 2])] >>= ModelQuery.build) =
      .ok ("SELECT * FROM t WHERE a NOT IN (?, ?)", [.pyint 1, .pyint 2]) ∧
    (applyOps baseT [(.opNotIn, "a", .pyint 5)] >>= ModelQuery.build) =
      .error (.valueError inNotInMsg) := by
  have hnotin : ∀ col : String, col ++ " " ++ "NOT IN" ++ " (" = col ++ " NOT IN (" := by
    intro col
    rw [String.append_assoc, String.append_assoc]
    rfl
  refine ⟨?_, ?_, ?_, ?_, rfl, rfl⟩
  · intro col xs
    calc renderCondition "not_in" "NOT IN" col (.pylist xs)
        = .ok (col ++ " " ++ "NOT IN" ++ " (" ++
            strJoin ", " (List.replicate xs.length "?") ++ ")", xs) := rfl
      _ = _ := by rw [hnotin]
  · intro col xs
    calc renderCondition "not_in" "NOT IN" col (.pytuple xs)
        = .ok (col ++ " " ++ "NOT IN" ++ " (" ++
            strJoin ", " (List.replicate xs.length "?") ++ ")", xs) := rfl
      _ = _ := by rw [hnotin]
  · intro col v hv
    cases v <;> simp_all [renderCondition, isSeqValue]
  · intro col v
    calc renderCondition "in_" "IN" col v
        = .ok (col ++ " " ++ "IN" ++ " ?", [v]) := rfl
      _ = .ok (col ++ " IN ?", [v]) := by
          rw [String.append_assoc, String.append_assoc]
          rfl

/-- Witness for the hypothesis-bearing conjunct of the amended theorem:
a concrete non-sequence value is rejected with the value-type error. -/
theorem membership_rendering_amended_witness :
    isSeqValue (Value.pyint 5) = false ∧
    renderCondition "not_in" "NOT IN" "a" (.pyint 5) = .error (.valueError inNotInMsg) :=
  ⟨rfl, membership_rendering_amended.2.2.1 "a" (.pyint 5) rfl⟩

/-- C8: `preview` is a total function of the builder (it catches every
assembly error, and the substitution step cannot fail), and its output is
as specified: (1) any build failure is rendered as an inline comment
holding the error kind and message; (2) once the parameters run out every
remaining placeholder is left untouched; (3) each placeholder is replaced
by the literal rendering of the next parameter in order; (4) the string
parameter previews as a literal with the embedded single quote
doubled; (5) in a concrete query with more placeholders than parameters
the trailing placeholder survives; (6) a concrete failing build previews
as the inline `ValueError` comment. -/
theorem preview_total_and_rendering :
    (∀ (b : ModelQuery) (e : PyErr), b.build = .error e →
      b.preview = "/* PREVIEW ERROR: " ++ errName e ++ ": " ++ errMsg e ++ " */") ∧
    (∀ cs : List Char, substQ cs [] = cs) ∧
    (∀ (pre post : List Char) (p : Value) (ps : List Value), '?' ∉ pre →
      substQ (pre ++ '?' :: post) (p :: ps) = pre ++ (renderParam p).data ++ substQ post ps) ∧
    (applyOps baseT [(.opEqual, "name", .pystr ("O" ++ sq ++ "Brien"))]).map
        ModelQuery.preview =
      .ok ("SELECT * FROM t WHERE name = " ++ sq ++ "O" ++ sq ++ sq ++ "Brien" ++ sq) ∧
    (applyOps baseT [(.opEqual, "a?", .pyint 1)]).map ModelQuery.preview =
      .ok "SELECT * FROM t WHERE a1 = ?" ∧
    (applyOps baseT [(.opNotIn, "a", .pyint 5)]).map ModelQuery.preview =
      .ok ("/* PREVIEW ERROR: ValueError: " ++ inNotInMsg ++ " */") := by
  refine ⟨?_, ?_, ?_, by rfl, by rfl, by rfl⟩
  · intro b e h
    simp [ModelQuery.preview, h]
  · intro cs
    induction cs with
    | nil => rfl
    | cons c rest ih =>
      by_cases hc : c = '?' <;> simp [substQ, hc, ih]
  · intro pre post p ps hpre
    induction pre with
    | nil => simp [substQ]
    | cons c rest ih =>
      have hc : ¬ c = '?' := fun hc => hpre (hc ▸ List.mem_cons_self c rest)
      have ih' := ih (fun hm => hpre (List.mem_cons_of_mem c hm))
      simp [substQ, if_neg hc, ih']

/-- Witness for the hypothesis-bearing conjuncts of the preview theorem:
the missing-table builder previews as the inline comment, and one
placeholder after a placeholder-free prefix is substituted. -/
theorem preview_total_and_rendering_witness :
    initB.build = .error (tablenameError initB) ∧
    initB.preview =
      "/* PREVIEW ERROR: " ++ errName (tablenameError initB) ++ ": " ++
        errMsg (tablenameError initB) ++ " */" ∧
    substQ ['x', ' ', '?'] [Value.pynone] = ['x', ' ', 'N', 'U', 'L', 'L'] := by
  refine ⟨rfl, preview_total_and_rendering.1 initB (tablenameError initB) rfl, ?_⟩
  have h := preview_total_and_rendering.2.2.1 ['x', ' '] [] Value.pynone [] (by decide)
  simpa using h

/-- Every generated operator name passes the registry membership check. -/
theorem lookup_toName_isNone (op : OpName) :
    (lookupAssoc op.toName OPERATOR_MAP).isNone = false := by
  cases op <;> rfl

/-- Appending a condition under a registry operator keeps the predicate
dict registry-shaped: only the list of that operator grows, and no key moves. -/
theorem assocAppendAt_registryMap (op : OpName) (e : String × Value)
    (g : String → List (String × Value)) :
    assocAppendAt op.toName e (registryMap g) =
      some (registryMap (fun k => if k = op.toName then g k ++ [e] else g k)) := by
  cases op <;> rfl

/-- Closed form of a chain of generated operator-method calls on a
table-bound builder with a registry-shaped predicate dict: every call
succeeds, no key is added, moved or removed — the dict keeps the fixed
registry key order — and the list of each operator is extended, in call order,
with exactly the pairs passed for that operator. -/
theorem applyOps_registry (calls : List OpCall) (q : String)
    (v sv : Option (List (String × Value))) (j ob : Option (List (String × String)))
    (pg : Option (Option Int × Option Int)) (r : Option (List String))
    (g : String → List (String × Value)) :
    applyOps ⟨some q, registryMap g, v, sv, j, ob, pg, r⟩ calls =
      .ok ⟨some q, registryMap (fun k => g k ++ calls.filterMap
          (fun c => if c.1.toName = k then some (c.2.1, c.2.2) else none)),
        v, sv, j, ob, pg, r⟩ := by
  induction calls generalizing g with
  | nil => simp [applyOps]
  | cons c cs ih =>
    simp only [applyOps, applyOp, operatorMethod, Option.isNone_some,
      lookup_toName_isNone c.1, Bool.false_eq_true, if_false,
      assocAppendAt_registryMap c.1 (c.2.1, c.2.2) g, cloneWith, orKeep]
    rw [ih]
    congr 1
    congr 1
    refine congrArg registryMap ?_
    funext k
    by_cases hk : c.1.toName = k
    · simp [hk, List.filterMap_cons, List.append_assoc]
    · have hk' : ¬ k = c.1.toName := fun h => hk (Eq.symm h)
      simp [hk, hk', List.filterMap_cons]

/-- C6: predicate dicts stay in fixed registry key order, so `build`
emits the WHERE clauses grouped by operator in registry order and, within
one operator, in insertion order, independent of the order the operator
methods were called.  The first conjunct is the closed form for an
arbitrary call chain on `select("t")`: the resulting dict lists the
twelve operators in registry order, each holding exactly its calls in
call order.  The remaining conjuncts check the specified example in both
call orders: `equal` always precedes `like` and the parameters line up
with that clause order. -/
theorem where_clauses_registry_order :
    (∀ calls : List OpCall,
      applyOps baseT calls = .ok ⟨some "SELECT * FROM t",
        registryMap (fun k => calls.filterMap
          (fun c => if c.1.toName = k then some (c.2.1, c.2.2) else none)),
        none, none, none, none, none, none⟩) ∧
    (applyOps baseT [(.opEqual, "a", .pyint 1), (.opLike, "b", .pystr "%x%")] >>=
        ModelQuery.build) =
      .ok ("SELECT * FROM t WHERE a = ? AND b LIKE ?", [.pyint 1, .pystr "%x%"]) ∧
    (applyOps baseT [(.opLike, "b", .pystr "%x%"), (.opEqual, "a", .pyint 1)] >>=
        ModelQuery.build) =
      .ok ("SELECT * FROM t WHERE a = ? AND b LIKE ?", [.pyint 1, .pystr "%x%"]) := by
  refine ⟨?_, by rfl, by rfl⟩
  intro calls
  calc applyOps baseT calls
      = applyOps ⟨some "SELECT * FROM t", registryMap (fun _ => []),
          none, none, none, none, none, none⟩ calls := rfl
    _ = _ := by
        rw [applyOps_registry calls "SELECT * FROM t" none none none none none none
          (fun _ => [])]
        simp

/-- Placeholder counting distributes over string concatenation. -/
theorem countQ_append (a b : String) : countQ (a ++ b) = countQ a + countQ b := by
  simp [countQ, countQL, String.data_append, List.count_append]

/-- Placeholder count of a packed character list. -/
theorem countQ_mk (l : List Char) : countQ (String.mk l) = countQL l := rfl

/-- Placeholder count of a separator-join with a placeholder-free
separator is the sum over the parts. -/
theorem countQ_strJoin (sep : String) (hs : countQ sep = 0) :
    ∀ xs : List String, countQ (strJoin sep xs) = (xs.map countQ).sum
  | [] => rfl
  | [s] => by simp [strJoin]
  | s :: s' :: rest => by
    have ih := countQ_strJoin sep hs (s' :: rest)
    simp [strJoin, countQ_append, hs] at ih ⊢
    omega

/-- Placeholder count of a plain concatenation is the sum over the
parts. -/
theorem countQ_concatAll : ∀ xs : List String, countQ (concatAll xs) = (xs.map countQ).sum
  | [] => rfl
  | s :: rest => by
    have ih := countQ_concatAll rest
    simp [concatAll, countQ_append, ih]

/-- A comma-join of `n` placeholder strings holds exactly `n`
placeholders. -/
theorem countQ_replicateQ (n : Nat) : countQ (strJoin ", " (List.replicate n "?")) = n := by
  rw [countQ_strJoin ", " rfl, List.map_replicate]
  have h1 : countQ "?" = 1 := rfl
  rw [h1]
  simp [List.sum_replicate]

/-- Digit characters are never the placeholder character. -/
theorem digitChar_beq (d : Nat) : (digitChar d == '?') = false := by
  unfold digitChar
  split <;> rfl

/-- Decimal digit runs contain no placeholder character. -/
theorem countQL_natCharsAux : ∀ fuel n, countQL (natCharsAux fuel n) = 0
  | 0, _ => rfl
  | fuel + 1, n => by
    have ih := countQL_natCharsAux fuel (n / 10)
    by_cases h : n < 10 <;>
      simp [natCharsAux, h, countQL, List.count_cons, List.count_append, digitChar_beq,
        countQL_natCharsAux fuel (n / 10)] at ih ⊢
    omega

/-- The decimal rendering of an integer contains no placeholder
character. -/
theorem countQ_pyIntStr (i : Int) : countQ (pyIntStr i) = 0 := by
  unfold pyIntStr natChars
  split
  · rw [countQ_append]
    have h2 : countQ (String.mk (natCharsAux (i.natAbs + 1) i.natAbs)) = 0 :=
      countQL_natCharsAux _ _
    rw [h2]
    rfl
  · exact countQL_natCharsAux _ _

/-- Successful dict lookup implies list membership. -/
theorem lookupAssoc_mem {β : Type} (k : String) (v : β) :
    ∀ l : List (String × β), lookupAssoc k l = some v → (k, v) ∈ l
  | [], h => by simp [lookupAssoc] at h
  | (k', v') :: t, h => by
    by_cases hk : k = k'
    · subst hk
      simp [lookupAssoc] at h
      subst h
      exact List.mem_cons_self _ _
    · rw [lookupAssoc, if_neg hk] at h
      exact List.mem_cons_of_mem _ (lookupAssoc_mem k v t h)

/-- Every registry operator symbol is free of placeholder characters. -/
theorem countQ_opSymbol (k s : String) (h : lookupAssoc k OPERATOR_MAP = some s) :
    countQ s = 0 := by
  have hall : ∀ p ∈ OPERATOR_MAP, countQ p.2 = 0 := by decide
  exact hall _ (lookupAssoc_mem k s OPERATOR_MAP h)

/-- One rendered WHERE condition carries exactly as many placeholders as
the parameters it appends, whenever the column and operator symbol are
placeholder-free. -/
theorem renderCondition_count (op sym col : String) (v : Value) (cl : String)
    (ps : List Value) (hc : countQ col = 0) (hs : countQ sym = 0)
    (h : renderCondition op sym col v = .ok (cl, ps)) : countQ cl = ps.length := by
  have hsp : countQ " " = 0 := rfl
  have hop : countQ " (" = 0 := rfl
  have hcl : countQ ")" = 0 := rfl
  have hqm : countQ " ?" = 1 := rfl
  unfold renderCondition at h
  split at h
  · simp only [Except.ok.injEq, Prod.mk.injEq] at h
    obtain ⟨h1, h2⟩ := h
    subst h1; subst h2
    simp [countQ_append, hc, hs, hsp]
  · split at h
    · cases v with
      | pylist xs =>
        simp only [Except.ok.injEq, Prod.mk.injEq] at h
        obtain ⟨h1, h2⟩ := h
        subst h1; subst h2
        simp [countQ_append, hc, hs, hsp, hop, hcl, countQ_replicateQ]
      | pytuple xs =>
        simp only [Except.ok.injEq, Prod.mk.injEq] at h
        obtain ⟨h1, h2⟩ := h
        subst h1; subst h2
        simp [countQ_append, hc, hs, hsp, hop, hcl, countQ_replicateQ]
      | pynone => simp at h
      | pyint j => simp at h
      | pystr s => simp at h
    · simp only [Except.ok.injEq, Prod.mk.injEq] at h
      obtain ⟨h1, h2⟩ := h
      subst h1; subst h2
      simp [countQ_append, hc, hs, hsp, hqm]

/-- Placeholder-parameter balance of the inner WHERE loop over the
condition list of one operator. -/
theorem renderConditions_count (op sym : String) (hs : countQ sym = 0) :
    ∀ (conds : List (String × Value)) (cs : List String) (ps : List Value),
      (∀ cv ∈ conds, countQ cv.1 = 0) →
      renderConditions op sym conds = .ok (cs, ps) →
      (cs.map countQ).sum = ps.length
  | [], cs, ps, _, h => by
    simp only [renderConditions, Except.ok.injEq, Prod.mk.injEq] at h
    obtain ⟨h1, h2⟩ := h
    subst h1; subst h2
    rfl
  | (c, v) :: rest, cs, ps, hcols, h => by
    cases hr : renderCondition op sym c v with
    | error e => simp [renderConditions, hr, Bind.bind, Except.bind] at h
    | ok pr =>
      obtain ⟨clause, ps1⟩ := pr
      cases hrest : renderConditions op sym rest with
      | error e => simp [renderConditions, hr, hrest, Bind.bind, Except.bind] at h
      | ok pr2 =>
        obtain ⟨cs', ps'⟩ := pr2
        simp only [renderConditions, hr, hrest, Bind.bind, Except.bind,
          Except.ok.injEq, Prod.mk.injEq] at h
        obtain ⟨h1, h2⟩ := h
        subst h1; subst h2
        have hc : countQ c = 0 := hcols (c, v) (List.mem_cons_self _ _)
        have hcl := renderCondition_count op sym c v clause ps1 hc hs hr
        have ih := renderConditions_count op sym hs rest cs' ps'
          (fun cv hm => hcols cv (List.mem_cons_of_mem _ hm)) hrest
        simp [hcl, ih]

/-- Placeholder-parameter balance of the outer WHERE loop over the
predicate dict. -/
theorem buildWhere_count :
    ∀ (prm : Params) (cs : List String) (ps : List Value),
      (∀ e ∈ prm, ∀ cv ∈ e.2, countQ cv.1 = 0) →
      buildWhere prm = .ok (cs, ps) →
      (cs.map countQ).sum = ps.length
  | [], cs, ps, _, h => by
    simp only [buildWhere, Except.ok.injEq, Prod.mk.injEq] at h
    obtain ⟨h1, h2⟩ := h
    subst h1; subst h2
    rfl
  | (op, conds) :: rest, cs, ps, hcols, h => by
    by_cases hE : conds.isEmpty
    · rw [buildWhere, if_pos hE] at h
      exact buildWhere_count rest cs ps
        (fun e hm => hcols e (List.mem_cons_of_mem _ hm)) h
    · cases hl : lookupAssoc op OPERATOR_MAP with
      | none => simp [buildWhere, hE, hl] at h
      | some sym =>
        cases hrc : renderConditions op sym conds with
        | error e => simp [buildWhere, hE, hl, hrc, Bind.bind, Except.bind] at h
        | ok pr =>
          obtain ⟨cs1, ps1⟩ := pr
          cases hrest : buildWhere rest with
          | error e => simp [buildWhere, hE, hl, hrc, hrest, Bind.bind, Except.bind] at h
          | ok pr2 =>
            obtain ⟨cs2, ps2⟩ := pr2
            simp only [buildWhere, if_neg hE, hl, hrc, hrest, Bind.bind, Except.bind,
              Except.ok.injEq, Prod.mk.injEq] at h
            obtain ⟨h1, h2⟩ := h
            subst h1; subst h2
            have hs := countQ_opSymbol op sym hl
            have hA := renderConditions_count op sym hs conds cs1 ps1
              (hcols (op, conds) (List.mem_cons_self _ _)) hrc
            have hB := buildWhere_count rest cs2 ps2
              (fun e hm => hcols e (List.mem_cons_of_mem _ hm)) hrest
            simp [List.map_append, List.sum_append, hA, hB]

/-- Placeholder-parameter balance of the whole WHERE segment. -/
theorem whereSegment_count (prm : Params) (w : String) (ps : List Value)
    (hcols : ∀ e ∈ prm, ∀ cv ∈ e.2, countQ cv.1 = 0)
    (h : whereSegment prm = .ok (w, ps)) : countQ w = ps.length := by
  unfold whereSegment at h
  split at h
  · cases hb : buildWhere prm with
    | error e => rw [hb] at h; simp at h
    | ok pr =>
      obtain ⟨cs, prms⟩ := pr
      rw [hb] at h
      simp only [Except.ok.injEq, Prod.mk.injEq] at h
      obtain ⟨h1, h2⟩ := h
      subst h1; subst h2
      have hsum := buildWhere_count prm cs prms hcols hb
      by_cases hcs : cs.isEmpty
      · rw [if_pos hcs]
        rw [List.isEmpty_iff] at hcs
        subst hcs
        have h0 : countQ "" = 0 := rfl
        simp at hsum
        simp [h0, hsum]
      · have hW : countQ " WHERE " = 0 := rfl
        rw [if_neg hcs, countQ_append, countQ_strJoin " AND " rfl, hsum, hW]
        omega
  · simp only [Except.ok.injEq, Prod.mk.injEq] at h
    obtain ⟨h1, h2⟩ := h
    subst h1; subst h2
    rfl

/-- A list of placeholder-free strings sums to zero placeholders. -/
theorem sum_countQ_zero (l : List String) (h : ∀ s ∈ l, countQ s = 0) :
    (l.map countQ).sum = 0 := by
  apply List.sum_eq_zero
  intro x hx
  obtain ⟨s, hs, rfl⟩ := List.mem_map.1 hx
  exact h s hs

/-- The JOIN segment holds no placeholders when the join tables and
conditions are placeholder-free. -/
theorem joinSegment_count (q : String) (j : Option (List (String × String)))
    (hj : ∀ tc ∈ j.getD [], countQ tc.1 = 0 ∧ countQ tc.2 = 0) :
    countQ (joinSegment q j) = 0 := by
  unfold joinSegment
  split
  · rw [countQ_concatAll]
    apply sum_countQ_zero
    intro s hs
    obtain ⟨tc, htc, rfl⟩ := List.mem_map.1 hs
    have hJ : countQ " JOIN " = 0 := rfl
    have hO : countQ " ON " = 0 := rfl
    simp [countQ_append, hJ, hO, (hj tc htc).1, (hj tc htc).2]
  · rfl

/-- Each SET clause contributes exactly one placeholder when the
assignment keys are placeholder-free. -/
theorem sum_set_clauses :
    ∀ l : List (String × Value), (∀ kv ∈ l, countQ kv.1 = 0) →
      ((l.map (fun kv => kv.1 ++ " = ?")).map countQ).sum = l.length
  | [], _ => rfl
  | kv :: rest, h => by
    have hk := h kv (List.mem_cons_self _ _)
    have ih := sum_set_clauses rest (fun x hm => h x (List.mem_cons_of_mem _ hm))
    have hE : countQ " = ?" = 1 := rfl
    simp [countQ_append, hk, hE, List.map_map] at ih ⊢
    omega

/-- The SET segment balances placeholders with its parameters. -/
theorem setSegment_count (q : String) (sv : Option (List (String × Value)))
    (hk : ∀ kv ∈ sv.getD [], countQ kv.1 = 0) :
    countQ (setSegment q sv).1 = (setSegment q sv).2.length := by
  unfold setSegment
  split
  · have hS : countQ " SET " = 0 := rfl
    simp only
    rw [countQ_append, countQ_strJoin ", " rfl, hS, sum_set_clauses (sv.getD []) hk]
    simp
  · rfl

/-- The VALUES segment balances placeholders with its parameters. -/
theorem valuesSegment_count (q : String) (v : Option (List (String × Value)))
    (hk : ∀ kv ∈ v.getD [], countQ kv.1 = 0) :
    countQ (valuesSegment q v).1 = (valuesSegment q v).2.length := by
  unfold valuesSegment
  split
  · have hP1 : countQ " (" = 0 := rfl
    have hP2 : countQ ") VALUES (" = 0 := rfl
    have hP3 : countQ ")" = 0 := rfl
    simp only
    rw [countQ_append, countQ_append, countQ_append, countQ_append,
      countQ_strJoin ", " rfl, countQ_replicateQ, hP1, hP2, hP3,
      sum_countQ_zero ((v.getD []).map (fun kv => kv.1))
        (by intro s hs
            obtain ⟨kv, hkv, rfl⟩ := List.mem_map.1 hs
            exact hk kv hkv)]
    simp
  · rfl

/-- The ORDER BY segment holds no placeholders when its columns and
directions are placeholder-free. -/
theorem orderSegment_count (q : String) (ob : Option (List (String × String)))
    (h : ∀ cd ∈ ob.getD [], countQ cd.1 = 0 ∧ countQ cd.2 = 0) :
    countQ (orderSegment q ob) = 0 := by
  unfold orderSegment
  split
  · have hO : countQ " ORDER BY " = 0 := rfl
    rw [countQ_append, countQ_strJoin ", " rfl, hO]
    rw [sum_countQ_zero]
    intro s hs
    obtain ⟨cd, hcd, rfl⟩ := List.mem_map.1 hs
    have hsp : countQ " " = 0 := rfl
    simp [countQ_append, hsp, (h cd hcd).1, (h cd hcd).2]
  · rfl

/-- The LIMIT/OFFSET segment never holds placeholders (the bounds are
rendered as decimal literals). -/
theorem pagSegment_count (q : String) (pg : Option (Option Int × Option Int)) :
    countQ (pagSegment q pg) = 0 := by
  have hL : countQ " LIMIT " = 0 := rfl
  have hO : countQ " OFFSET " = 0 := rfl
  have hN : countQ "" = 0 := rfl
  cases pg with
  | none => rfl
  | some p =>
    obtain ⟨off, lim⟩ := p
    cases hs : pyStartsWith q "SELECT" with
    | false => simp [pagSegment, hs, hN]
    | true =>
      cases lim <;> cases off <;>
        simp [pagSegment, hs, countQ_append, countQ_pyIntStr, hL, hO, hN]

/-- The RETURNING segment holds no placeholders when the column names
are placeholder-free. -/
theorem returningSegment_count (q : String) (r : Option (List String))
    (h : ∀ s ∈ r.getD [], countQ s = 0) :
    countQ (returningSegment q r) = 0 := by
  unfold returningSegment
  split
  · have hR : countQ " RETURNING " = 0 := rfl
    rw [countQ_append, countQ_strJoin ", " rfl, hR, sum_countQ_zero _ h]
  · rfl

/-- C5 (counterexample): the claim fails as stated, because a
caller-supplied identifier may itself contain the placeholder character,
which the engine would count as a positional placeholder.
`select("t").equal("a?", 1)` — a populated where clause — builds SQL text
holding two placeholder characters with a one-element parameter list. -/
theorem placeholder_consistency_counterexample :
    (applyOps baseT [(.opEqual, "a?", .pyint 1)] >>= ModelQuery.build) =
      .ok ("SELECT * FROM t WHERE a? = ?", [.pyint 1]) ∧
    countQ "SELECT * FROM t WHERE a? = ?" = 2 ∧
    ([Value.pyint 1] : List Value).length = 1 :=
  ⟨rfl, rfl, rfl⟩

/-- C5 (amended): for every builder bound to a table and every
combination of populated clauses whose caller-supplied strings (query
prefix, join tables and conditions, assignment and value column names,
predicate column names, order columns and directions, returning columns)
contain no placeholder character, the SQL text and parameter list
returned together by `build()` are consistent: the number of placeholder
characters in the SQL text equals the length of the parameter list. -/
theorem build_placeholder_param_consistency (b : ModelQuery) (sql : String)
    (prms : List Value) (hfree : builderQFree b) (h : b.build = .ok (sql, prms)) :
    countQ sql = prms.length := by
  obtain ⟨hq, hjoin, hset, hvals, hparams, hord, hret⟩ := hfree
  unfold ModelQuery.build at h
  cases hqq : b.query with
  | none => rw [hqq] at h; simp at h
  | some q =>
    rw [hqq] at h
    rw [hqq] at hq
    simp only [Option.getD_some] at hq
    cases hw : whereSegment b.params with
    | error e => rw [hw] at h; simp at h
    | ok pr =>
      obtain ⟨w, wps⟩ := pr
      rw [hw] at h
      simp only [Except.ok.injEq, Prod.mk.injEq] at h
      obtain ⟨h1, h2⟩ := h
      subst h1; subst h2
      have hJ := joinSegment_count q b.join hjoin
      have hS := setSegment_count q b.set_values hset
      have hV := valuesSegment_count q b.values hvals
      have hW := whereSegment_count b.params w wps hparams hw
      have hO := orderSegment_count q b.order_by hord
      have hP := pagSegment_count q b.pagination
      have hR := returningSegment_count q b.returning hret
      simp [countQ_append, hq, hJ, hS, hV, hW, hO, hP, hR]
      omega

/-- Witness: a fully populated UPDATE builder with assignments, three
kinds of predicates and a returning clause is placeholder-free and its
build balances five placeholders against five parameters. -/
theorem build_placeholder_param_consistency_witness :
    builderQFree c5b ∧
    c5b.build = .ok
      ("UPDATE t SET x = ?, y = ? WHERE a = ? AND b NOT IN (?, ?) AND c IS NULL RETURNING id",
       [.pystr "v", .pyint 7, .pyint 1, .pyint 2, .pyint 3]) ∧
    countQ "UPDATE t SET x = ?, y = ? WHERE a = ? AND b NOT IN (?, ?) AND c IS NULL RETURNING id"
      = ([Value.pystr "v", Value.pyint 7, Value.pyint 1, Value.pyint 2,
          Value.pyint 3] : List Value).length :=
  ⟨by unfold builderQFree; decide, rfl,
   build_placeholder_param_consistency c5b
     "UPDATE t SET x = ?, y = ? WHERE a = ? AND b NOT IN (?, ?) AND c IS NULL RETURNING id"
     [.pystr "v", .pyint 7, .pyint 1, .pyint 2, .pyint 3]
     (by unfold builderQFree; decide) rfl⟩

end Tscan
